import Mathlib

/-!
Shallow embedding of the tenant-resolution and authorization core of the
WampumsApi repository (a multi-tenant Express backend).

The embedding follows the JavaScript source:
  * `src/config/middleware.js` — `extractToken`, `isPublicRoute`, `verifyToken`,
    `tokenMiddleware`, `roleMiddleware`, `requireOrganizationContext`
  * `src/services/authService.js` — `generateTokens`, `authenticateUser`,
    `verifyAccessToken`, `verifyRefreshToken`
  * `src/utils.js` — `determineOrganizationId`, `userHasAccessToParticipant`
  * `src/middleware/organizationContext.js` — `requireOrganization`
  * `src/index.js` — the duplicated `tokenMiddleware` and the `reset_password`
    action handler

Conventions:
  * Machine/JS numbers are `Nat` (ids, timestamps in seconds).
  * JavaScript truthiness on optional numbers/strings is modelled explicitly
    (`undefined`/`null`/`0`/`""` are falsy).
  * A JWT is modelled as `RawToken`: either a malformed string or a payload
    signed with a key and carrying an absolute expiry; `jwt.verify` checks the
    signature first (JsonWebTokenError) and the expiry second
    (TokenExpiredError), as the `jsonwebtoken` library does.
  * SQL result sets with `LIMIT 1` and no `ORDER BY` are modelled as the first
    matching row of the table's list in storage order.
-/

namespace Wampums

/-! ## JWT model -/

/-- Claim set of a JSON Web Token as used across the source.  Absent claims are
`none`, mirroring `undefined` in JavaScript. -/
structure JwtPayload where
  id : Option Nat
  role : Option String
  organizationId : Option Nat
  email : Option String
  tokType : Option String
  tokenVersion : Option Nat
  purpose : Option String
  userId : Option Nat
deriving DecidableEq, Repr

/-- A raw bearer token: either a string that does not parse as a JWT, or a
payload signed with a key, expiring at an absolute time. -/
inductive RawToken
  | malformed (raw : String)
  | signed (payload : JwtPayload) (key : String) (exp : Nat)
deriving DecidableEq, Repr

/-- Failure classes thrown by `jwt.verify`: `JsonWebTokenError` (carrying its
message, `'jwt malformed'` or `'invalid signature'`) for a token that does not
parse or whose signature does not verify, `TokenExpiredError` for a valid
signature past expiry. -/
inductive JwtError
  | jsonWebTokenError (msg : String)
  | tokenExpiredError
deriving DecidableEq, Repr

/-- Error message carried by the thrown error object. -/
def jwtErrorMessage : JwtError → String
  | .jsonWebTokenError m => m
  | .tokenExpiredError => "jwt expired"

/-- `jwt.verify(token, key)` at clock time `now`: signature is checked before
expiry; a token is expired once `exp ≤ now`. -/
def jwtVerify (t : RawToken) (key : String) (now : Nat) : Except JwtError JwtPayload :=
  match t with
  | .malformed _ => .error (.jsonWebTokenError "jwt malformed")
  | .signed p k e =>
    if k ≠ key then .error (.jsonWebTokenError "invalid signature")
    else if e ≤ now then .error .tokenExpiredError
    else .ok p

/-! ## JavaScript truthiness helpers -/

/-- Truthiness of an optional number: `undefined` and `0` are falsy. -/
def natTruthy : Option Nat → Bool
  | none => false
  | some n => n != 0

/-- Truthiness of an optional string: `undefined` and `""` are falsy. -/
def strTruthy : Option String → Bool
  | none => false
  | some s => s != ""

/-! ## JavaScript string primitives

JS strings operate on code units; these helpers model the string methods used
by the source over Lean character lists (structurally recursive, so they
evaluate inside the kernel). -/

/-- `s.startsWith(pre)`. -/
def jsStartsWith (s pre : String) : Bool := pre.data.isPrefixOf s.data

/-- `s.endsWith(suf)`. -/
def jsEndsWith (s suf : String) : Bool := suf.data.isSuffixOf s.data

/-- `s.substring(n)` — drop the first `n` characters. -/
def jsDrop (s : String) (n : Nat) : String := String.mk (s.data.drop n)

/-- `s.slice(0, -n)` — drop the last `n` characters. -/
def jsDropRight (s : String) (n : Nat) : String :=
  String.mk (s.data.take (s.data.length - n))

/-- ASCII lower-casing of one character (`String.prototype.toLowerCase` on the
alphabet appearing in the source's emails). -/
def jsToLowerChar (c : Char) : Char :=
  if 'A' ≤ c ∧ c ≤ 'Z' then Char.ofNat (c.toNat + 32) else c

/-- `s.toLowerCase()` / SQL `LOWER(s)`. -/
def jsToLower (s : String) : String := String.mk (s.data.map jsToLowerChar)

/-! ## SQL LIKE and hostname-based tenant lookup (`src/utils.js`) -/

/-- A row of the `organization_domains` table. -/
structure DomainBinding where
  pattern : String
  orgId : Nat
deriving DecidableEq, Repr

/-- SQL `LIKE` matching over character lists (`%` matches any sequence, `_`
any single character), with explicit fuel so that the function is structurally
recursive and evaluates by `rfl`/`decide`.  Every recursive call consumes one
character of the pattern or of the string, so fuel `|p| + |s| + 1` suffices. -/
def likeFuel : Nat → List Char → List Char → Bool
  | 0, _, _ => false
  | _ + 1, [], [] => true
  | _ + 1, [], _ :: _ => false
  | fuel + 1, '%' :: ps, [] => likeFuel fuel ps []
  | fuel + 1, '%' :: ps, c :: cs =>
      likeFuel fuel ps (c :: cs) || likeFuel fuel ('%' :: ps) cs
  | _ + 1, '_' :: _, [] => false
  | fuel + 1, '_' :: ps, _ :: cs => likeFuel fuel ps cs
  | _ + 1, _ :: _, [] => false
  | fuel + 1, p :: ps, c :: cs => p == c && likeFuel fuel ps cs

/-- `s LIKE pat` in SQL. -/
def sqlLike (pat s : String) : Bool :=
  likeFuel (pat.data.length + s.data.length + 1) pat.data s.data

/-- `REPLACE(domain, '*', '%')`. -/
def replaceStar (s : String) : String :=
  String.mk (s.data.map (fun c => if c = '*' then '%' else c))

/-- The row predicate of the lookup query
`WHERE domain = $1 OR $2 LIKE REPLACE(domain, '*', '%')`. -/
def domainRowMatches (host : String) (b : DomainBinding) : Bool :=
  b.pattern == host || sqlLike (replaceStar b.pattern) host

/-- `determineOrganizationId` (`src/utils.js` lines 192–204): the query has
`LIMIT 1` and no `ORDER BY`, so the first matching row in storage order wins. -/
def determineOrganizationId (host : String) (db : List DomainBinding) : Option Nat :=
  (db.find? (domainRowMatches host)).map (·.orgId)

/-! ## Auth service (`src/services/authService.js`) -/

/-- The columns of the user row used by `generateTokens`
(`u.id`, `uo.role`, `u.email`, `u.token_version`). -/
structure UserRow where
  id : Nat
  role : String
  email : String
  token_version : Option Nat
deriving DecidableEq, Repr

/-- `ACCESS_TOKEN_EXPIRY = '1h'` in seconds. -/
def ACCESS_TOKEN_EXPIRY : Nat := 3600

/-- `REFRESH_TOKEN_EXPIRY = '7d'` in seconds. -/
def REFRESH_TOKEN_EXPIRY : Nat := 604800

/-- The access-token payload built by `generateTokens`:
`{ id, role, organizationId, type: 'access' }`. -/
def accessPayload (u : UserRow) (org : Nat) : JwtPayload :=
  { id := some u.id, role := some u.role, organizationId := some org,
    email := none, tokType := some "access", tokenVersion := none,
    purpose := none, userId := none }

/-- The refresh-token payload built by `generateTokens`:
`{ id, role, organizationId, email, type: 'refresh', tokenVersion }`,
where `tokenVersion = user.token_version || 0`. -/
def refreshPayload (u : UserRow) (org : Nat) : JwtPayload :=
  { id := some u.id, role := some u.role, organizationId := some org,
    email := some u.email, tokType := some "refresh",
    tokenVersion := some (u.token_version.getD 0),
    purpose := none, userId := none }

/-- The pair returned by `generateTokens`. -/
structure TokenPair where
  accessToken : RawToken
  refreshToken : RawToken
deriving DecidableEq, Repr

/-- `generateTokens(user, organizationId)` at clock time `now`, with the two
signing secrets (`JWT_SECRET`, `JWT_REFRESH_SECRET`) as parameters. -/
def generateTokens (secret refreshSecret : String) (u : UserRow) (org : Nat)
    (now : Nat) : TokenPair :=
  ⟨.signed (accessPayload u org) secret (now + ACCESS_TOKEN_EXPIRY),
   .signed (refreshPayload u org) refreshSecret (now + REFRESH_TOKEN_EXPIRY)⟩

/-- `verifyAccessToken` (`src/services/authService.js` lines 148–160): verify
with `JWT_SECRET`, reject unless the `type` claim is `'access'`; any thrown
error becomes `null`. -/
def verifyAccessToken (secret : String) (t : RawToken) (now : Nat) : Option JwtPayload :=
  match jwtVerify t secret now with
  | .ok d => if d.tokType == some "access" then some d else none
  | .error _ => none

/-- `verifyRefreshToken` (lines 167–179): same shape with `JWT_REFRESH_SECRET`
and `type = 'refresh'`. -/
def verifyRefreshToken (refreshSecret : String) (t : RawToken) (now : Nat) : Option JwtPayload :=
  match jwtVerify t refreshSecret now with
  | .ok d => if d.tokType == some "refresh" then some d else none
  | .error _ => none

/-- A row of the `users` table (the columns read by `authenticateUser`). -/
structure UserRec where
  id : Nat
  email : String
  password : String
  is_verified : Bool
  full_name : String
  token_version : Option Nat
deriving DecidableEq, Repr

/-- A row of the `user_organizations` table. -/
structure Membership where
  userId : Nat
  organizationId : Nat
  role : String
deriving DecidableEq, Repr

/-- The membership role of a subject within one organization (the
`uo.role` column joined on `user_id` and `organization_id`). -/
def lookupRole (ms : List Membership) (uid org : Nat) : Option String :=
  (ms.find? (fun m => m.userId == uid && m.organizationId == org)).map (·.role)

/-- The join of `authenticateUser`'s first query: the first user whose email
matches case-insensitively *and* who has a membership row in the given
organization, together with that membership's role.  A user with a matching
email but no membership in the organization contributes no row. -/
def queryUserRole (users : List UserRec) (ms : List Membership) (email : String)
    (org : Nat) : Option (UserRec × String) :=
  match users with
  | [] => none
  | u :: rest =>
    if jsToLower u.email == jsToLower email then
      match lookupRole ms u.id org with
      | some r => some (u, r)
      | none => queryUserRole rest ms email org
    else queryUserRole rest ms email org

/-- Model of a bcrypt hash: the stored digest of `pw` is `"$2b$" ++ pw`.
(The hash function itself is irrelevant to the claims; only the compare
structure of the source is kept.) -/
def bcryptHash (pw : String) : String := "$2b$" ++ pw

/-- `bcrypt.compare(password, hash)` under the hash model. -/
def bcryptCompare (pw hash : String) : Bool := hash == bcryptHash pw

/-- The `$2y$` → `$2b$` prefix normalisation performed before comparing. -/
def normalizeHash (h : String) : String :=
  if jsStartsWith h "$2y$" then "$2b$" ++ jsDrop h 4 else h

/-- Result of `authenticateUser`. -/
inductive AuthResult
  | failure (message : String)
  | success (user : UserRec) (role : String) (tokens : TokenPair)
deriving DecidableEq, Repr

/-- `authenticateUser(email, password, organizationId)`
(`src/services/authService.js` lines 62–110): fetch the user with their role
*for the specified organization*, check the password, check verification,
then issue tokens via `generateTokens` with that role and organization. -/
def authenticateUser (secret refreshSecret : String) (users : List UserRec)
    (ms : List Membership) (email pw : String) (org : Nat) (now : Nat) : AuthResult :=
  match queryUserRole users ms email org with
  | none => .failure "Invalid email or password"
  | some (u, role) =>
    if ¬ bcryptCompare pw (normalizeHash u.password) then
      .failure "Invalid email or password"
    else if ¬ u.is_verified then
      .failure "Your account is not verified. Please wait for admin verification."
    else
      .success u role (generateTokens secret refreshSecret
        ⟨u.id, role, u.email, u.token_version⟩ org now)

/-! ## HTTP layer: requests, response envelopes, middleware results -/

/-- The observable JSON body of a response.  `hasData` records whether the
object carries a `data` key at all (`res.json({success, message})` omits it,
`jsonResponse` always includes it); `data` is the value when present, with
`none` encoding JSON `null`. -/
structure Envelope where
  success : Bool
  hasData : Bool
  data : Option String
  message : String
deriving DecidableEq, Repr

/-- Outcome of running one middleware: pass control to the next handler with a
request context, or terminate the request with a status and body. -/
inductive MwResult (α : Type)
  | next (ctx : α)
  | reject (status : Nat) (body : Envelope)
deriving DecidableEq, Repr

/-- The request-scoped context fields written by the middleware chain:
`req.user` (decoded JWT) and `req.organizationId`. -/
structure Ctx where
  user : Option JwtPayload
  organizationId : Option Nat
deriving DecidableEq, Repr

/-- The parts of an Express request read by the context-resolution pipeline.
The opaque bearer-token string (when one was extracted) is modelled directly
as a `RawToken`; string-level header extraction is modelled separately by
`extractToken`. -/
structure Request where
  path : String
  bearer : Option RawToken
  queryHostname : Option String
  hostname : String
deriving DecidableEq, Repr

/-! ## `src/config/middleware.js` -/

/-- `extractToken(req)` (lines 22–35), at the string level: an Authorization
header starting with `'Bearer '` yields its 7th-character suffix; otherwise the
`token` query parameter is returned when truthy; otherwise `null`. -/
def extractToken (authHeader queryToken : Option String) : Option String :=
  match authHeader with
  | some h =>
    if jsStartsWith h "Bearer " then some (jsDrop h 7)
    else if strTruthy queryToken then queryToken
    else none
  | none =>
    if strTruthy queryToken then queryToken
    else none

/-- `PUBLIC_ROUTES` of `src/config/middleware.js`. -/
def PUBLIC_ROUTES : List String :=
  ["/login", "/api/login", "/register", "/refresh-token", "/verify-email",
   "/request-reset", "/reset-password", "/get-organization-settings",
   "/get-news", "/get-organization-id"]

/-- Trailing-slash normalisation used by `isPublicRoute`. -/
def normalizePath (p : String) : String :=
  if jsEndsWith p "/" then jsDropRight p 1 else p

/-- `isPublicRoute(path)` (lines 72–86). -/
def isPublicRoute (p : String) : Bool :=
  PUBLIC_ROUTES.contains (normalizePath p)

/-- `verifyToken(token)` (lines 91–98): `jwt.verify` with the server secret,
with *every* thrown error (malformed, bad signature, expired) collapsed to
`null` by the catch block. -/
def verifyToken (secret : String) (t : RawToken) (now : Nat) : Option JwtPayload :=
  (jwtVerify t secret now).toOption

/-- `tokenMiddleware` of `src/config/middleware.js` (lines 103–148).
Public routes skip verification; a missing token is 401; an unverifiable token
is 401; a verified payload with falsy `id` or `organizationId` throws inside
the `try`, producing 403; otherwise `req.user` and `req.organizationId` are
set from the claims.  The source suffixes the 403 message with
`JSON.stringify(decoded)`; the stringified payload (whose key order depends on
the raw token and is not representable here) is elided, and no theorem
concludes on that message. -/
def configTokenMiddleware (secret : String) (req : Request) (now : Nat) : MwResult Ctx :=
  if isPublicRoute req.path then .next ⟨none, none⟩
  else match req.bearer with
  | none => .reject 401 ⟨false, false, none, "Authentication required"⟩
  | some t =>
    match verifyToken secret t now with
    | none => .reject 401 ⟨false, false, none, "Invalid or expired token"⟩
    | some d =>
      if natTruthy d.id && natTruthy d.organizationId then
        .next ⟨some d, d.organizationId⟩
      else
        .reject 403 ⟨false, false, none, "Invalid or expired token: Invalid token payload"⟩

/-- `roleMiddleware(allowedRoles)` (lines 153–171): 403 when no user or falsy
role, 403 when the role is not in the allow-list, otherwise pass through. -/
def roleMiddleware (allowed : List String) (ctx : Ctx) : MwResult Ctx :=
  match ctx.user with
  | none => .reject 403 ⟨false, false, none, "No role information found"⟩
  | some d =>
    match d.role with
    | none => .reject 403 ⟨false, false, none, "No role information found"⟩
    | some r =>
      if r = "" then .reject 403 ⟨false, false, none, "No role information found"⟩
      else if allowed.contains r then .next ctx
      else .reject 403 ⟨false, false, none, "Insufficient permissions"⟩

/-- The hostname used by `requireOrganizationContext`:
`req.query.hostname || req.hostname`. -/
def effectiveHostname (req : Request) : String :=
  match req.queryHostname with
  | some h => if h = "" then req.hostname else h
  | none => req.hostname

/-- `requireOrganizationContext` of `src/config/middleware.js` (lines 194–226):
continue when `req.organizationId` is already truthy; otherwise look the
effective hostname up in `organization_domains`, setting the context on a hit
and rejecting 400 with the full `jsonResponse` envelope on a miss. -/
def requireOrganizationContext (ctx : Ctx) (req : Request)
    (db : List DomainBinding) : MwResult Ctx :=
  if natTruthy ctx.organizationId then .next ctx
  else match determineOrganizationId (effectiveHostname req) db with
  | some org => .next { ctx with organizationId := some org }
  | none => .reject 400 ⟨false, true, none, "Organization context required"⟩

/-- The tenant-resolution pipeline as mounted by the application:
`tokenMiddleware` (sets `req.organizationId` from a verified claim) followed by
`requireOrganizationContext` (hostname fallback). -/
def resolveContext (secret : String) (req : Request) (now : Nat)
    (db : List DomainBinding) : MwResult Ctx :=
  match configTokenMiddleware secret req now with
  | .next ctx => requireOrganizationContext ctx req db
  | .reject s b => .reject s b

/-! ## `src/middleware/organizationContext.js` -/

/-- `requireOrganization(required)` (lines 9–22): when required and
`req.organizationId` is falsy it answers with `jsonResponse(res, false, null,
...)` — note that **no status is set**, so Express responds 200. -/
def requireOrganization (required : Bool) (ctx : Ctx) : MwResult Ctx :=
  if ¬ required then .next ctx
  else if natTruthy ctx.organizationId then .next ctx
  else .reject 200 ⟨false, true, none, "Organization context is required"⟩

/-! ## `src/index.js` `tokenMiddleware` (lines 57–107) -/

/-- The `publicRoutes` list local to `src/index.js`. -/
def indexPublicRoutes : List String :=
  ["/authenticate", "/login", "/register", "/verify-email", "/request_reset",
   "/reset_password", "/get_organization_id", "/get_organization_settings",
   "/get_news"]

/-- The duplicated `tokenMiddleware` of `src/index.js`: a missing token is 401
`"Missing token"`, but `jwt.verify` is called inside the `try`, so **any**
verification failure (bad signature or expiry) reaches the catch block and is
answered with **403** `"Invalid or expired token: ..."`, as is a falsy
`id`/`organizationId` payload.  On success only `req.user` is assigned —
unlike the `config/middleware.js` variant, this middleware never sets
`req.organizationId`. -/
def indexTokenMiddleware (secret : String) (req : Request) (now : Nat) : MwResult Ctx :=
  if indexPublicRoutes.contains req.path then .next ⟨none, none⟩
  else match req.bearer with
  | none => .reject 401 ⟨false, false, none, "Missing token"⟩
  | some t =>
    match jwtVerify t secret now with
    | .error e =>
        .reject 403 ⟨false, false, none, "Invalid or expired token: " ++ jwtErrorMessage e⟩
    | .ok d =>
      if natTruthy d.id && natTruthy d.organizationId then
        .next ⟨some d, none⟩
      else
        .reject 403 ⟨false, false, none, "Invalid or expired token: Invalid token payload"⟩

/-! ## `userHasAccessToParticipant` (`src/utils.js` lines 54–78) -/

/-- A row of the `user_participants` table (direct ownership link). -/
structure UserParticipant where
  userId : Nat
  participantId : Nat
deriving DecidableEq, Repr

/-- A row of the `participant_organizations` table. -/
structure ParticipantOrg where
  participantId : Nat
  organizationId : Nat
deriving DecidableEq, Repr

/-- `userHasAccessToParticipant(userId, participantId)`: first query the direct
guardian link (`user_participants`); if a row exists return `true`
immediately, otherwise query for an `animation`/`admin` membership in an
organization the participant belongs to and return whether a row exists.
The result is a bare boolean — the function reports no reason. -/
def userHasAccessToParticipant (links : List UserParticipant)
    (ms : List Membership) (pos : List ParticipantOrg) (uid pid : Nat) : Bool :=
  if links.any (fun l => l.userId == uid && l.participantId == pid) then true
  else ms.any (fun m => m.userId == uid
    && (m.role == "animation" || m.role == "admin")
    && pos.any (fun po => po.participantId == pid && po.organizationId == m.organizationId))

/-! ## `reset_password` single-use token consumption (`src/index.js` lines 1568–1658)

The handler runs, inside a transaction at the default READ COMMITTED level:
  1. `SELECT * FROM password_reset_tokens WHERE token = $1 AND used = false ...`
  2. on a hit: `UPDATE users ...` then
     `UPDATE password_reset_tokens SET used = true WHERE token = $1` and COMMIT,
     reporting success; on a miss: ROLLBACK and report failure.
The `UPDATE` carries no `used = false` condition, and the `SELECT` takes no
lock, so two interleaved requests can both observe `used = false` before
either commits.  The model below executes two such transactions over the
shared `used` flag under an explicit interleaving schedule; each transaction
has a SELECT step and an UPDATE/report step. -/

/-- Per-transaction progress: what the SELECT read (if executed yet) and the
reported outcome (if finished). -/
structure TxnState where
  readUsed : Option Bool
  result : Option Bool
deriving DecidableEq, Repr

/-- The shared token row plus the two concurrent transactions. -/
structure ResetSys where
  used : Bool
  t1 : TxnState
  t2 : TxnState
deriving DecidableEq, Repr

/-- Execute one step of one transaction against the shared `used` flag:
first step reads the flag (the SELECT), second step — taken only when the
SELECT found an unconsumed row — sets `used := true` and reports success,
otherwise reports failure.  Returns the new transaction state and flag. -/
def stepTxn (t : TxnState) (used : Bool) : TxnState × Bool :=
  match t.readUsed, t.result with
  | none, _ => ({ t with readUsed := some used }, used)
  | some r, none =>
    if r = false then ({ t with result := some true }, true)
    else ({ t with result := some false }, used)
  | some _, some _ => (t, used)

/-- Advance the system by one step of transaction 1 (`true`) or 2 (`false`). -/
def stepSys (s : ResetSys) (i : Bool) : ResetSys :=
  if i then
    let (t, u) := stepTxn s.t1 s.used
    { s with t1 := t, used := u }
  else
    let (t, u) := stepTxn s.t2 s.used
    { s with t2 := t, used := u }

/-- Run a schedule (a list of which transaction moves at each step). -/
def runSchedule (sched : List Bool) (s : ResetSys) : ResetSys :=
  sched.foldl stepSys s

/-- Both transactions pending over an unconsumed token. -/
def resetInit : ResetSys := ⟨false, ⟨none, none⟩, ⟨none, none⟩⟩

/-! ## Fixed sample data used by concrete evaluations -/

/-- A sample verified access-token payload: subject 1, role `admin`,
organization 7. -/
def pAdmin7 : JwtPayload := accessPayload ⟨1, "admin", "a@b.c", none⟩ 7

/-- A sample `organization_domains` table: `evil.app` belongs to tenant 99 and
`real.app` to tenant 1. -/
def dbX : List DomainBinding := [⟨"evil.app", 99⟩, ⟨"real.app", 1⟩]

/-! ## Claim theorems -/

/-- C2 (counterexample): the domain lookup uses `LIMIT 1` with no `ORDER BY`,
so for the hostname `meute6a.app`, which matches both the wildcard binding
`*.app` (stored first, tenant 99) and the exact binding `meute6a.app`
(tenant 42), resolution returns the wildcard's tenant 99, not the exact
match's 42 — the exact match does *not* win regardless of storage order. -/
theorem c2_counterexample :
    determineOrganizationId "meute6a.app" [⟨"*.app", 99⟩, ⟨"meute6a.app", 42⟩] = some 99 ∧
    (99 : Nat) ≠ 42 := by decide

/-- C2 (amended): hostname-based resolution returns the organizationId of the
first stored binding matching exactly or by wildcard; in particular the exact
match wins exactly when no matching wildcard binding is stored before it. -/
theorem c2_amended (pre post : List DomainBinding) (e : DomainBinding) (host : String)
    (hpre : ∀ b ∈ pre, domainRowMatches host b = false) (he : e.pattern = host) :
    determineOrganizationId host (pre ++ e :: post) = some e.orgId := by
  have hme : domainRowMatches host e = true := by
    simp [domainRowMatches, he]
  induction pre with
  | nil =>
    simp [determineOrganizationId, List.find?_cons_of_pos _ hme]
  | cons b rest ih =>
    have hb : domainRowMatches host b = false := hpre b (by simp)
    have hrest : ∀ x ∈ rest, domainRowMatches host x = false :=
      fun x hx => hpre x (by simp [hx])
    rw [List.cons_append]
    unfold determineOrganizationId
    rw [List.find?_cons_of_neg _ (by simp [hb])]
    exact ih hrest

/-- C2 (witness): with no binding stored before it, the exact binding
`meute6a.app ↦ 42` wins over the later wildcard `*.app ↦ 99`. -/
theorem c2_amended_witness :
    determineOrganizationId "meute6a.app"
      [⟨"other.com", 7⟩, ⟨"meute6a.app", 42⟩, ⟨"*.app", 99⟩] = some 42 :=
  c2_amended [⟨"other.com", 7⟩] [⟨"*.app", 99⟩] ⟨"meute6a.app", 42⟩ "meute6a.app"
    (by decide) rfl

/-- C3 (counterexample): an expired token with a valid signature and a token
with a wrong signature are both mapped to `none` by `verifyToken` and by
`verifyAccessToken` — the code never produces a distinct `CredentialExpired`
outcome, and the two failures are indistinguishable to the caller. -/
theorem c3_counterexample :
    verifyToken "k" (.signed pAdmin7 "k" 10) 20 = none ∧
    verifyToken "k" (.signed pAdmin7 "wrong" 100) 20 = none ∧
    verifyToken "k" (.signed pAdmin7 "k" 10) 20 =
      verifyToken "k" (.signed pAdmin7 "wrong" 100) 20 ∧
    verifyAccessToken "k" (.signed pAdmin7 "k" 10) 20 = none ∧
    verifyAccessToken "k" (.malformed "xx") 20 = none := by decide

/-- C3 (amended): verification collapses every failure to `null`: a wrongly
signed credential, an expired credential with a valid signature, and a
malformed credential all yield `none` from both `verifyToken` and
`verifyAccessToken`, so the caller cannot tell the failure classes apart. -/
theorem c3_amended (secret : String) (p : JwtPayload) (k : String) (e now : Nat)
    (s : String) :
    (k ≠ secret → verifyToken secret (.signed p k e) now = none) ∧
    (e ≤ now → verifyToken secret (.signed p secret e) now = none) ∧
    verifyToken secret (.malformed s) now = none ∧
    (k ≠ secret → verifyAccessToken secret (.signed p k e) now = none) ∧
    (e ≤ now → verifyAccessToken secret (.signed p secret e) now = none) := by
  refine ⟨fun h => ?_, fun h => ?_, ?_, fun h => ?_, fun h => ?_⟩ <;>
    simp [verifyToken, verifyAccessToken, jwtVerify, Except.toOption, *]

/-- C3 (amended, witness): concrete instances of all five collapse cases. -/
theorem c3_amended_witness :
    verifyToken "k" (.signed pAdmin7 "bad" 100) 50 = none ∧
    verifyToken "k" (.signed pAdmin7 "k" 10) 20 = none ∧
    verifyToken "k" (.malformed "zz") 0 = none ∧
    verifyAccessToken "k" (.signed pAdmin7 "bad" 100) 50 = none ∧
    verifyAccessToken "k" (.signed pAdmin7 "k" 10) 20 = none :=
  ⟨(c3_amended "k" pAdmin7 "bad" 100 50 "zz").1 (by decide),
   (c3_amended "k" pAdmin7 "k" 10 20 "zz").2.1 (by decide),
   (c3_amended "k" pAdmin7 "k" 10 0 "zz").2.2.1,
   (c3_amended "k" pAdmin7 "bad" 100 50 "zz").2.2.2.1 (by decide),
   (c3_amended "k" pAdmin7 "k" 10 20 "zz").2.2.2.2 (by decide)⟩

/-- C5 (counterexample): `userHasAccessToParticipant` returns a bare boolean;
denial carries no reason.  With no link and no role at all, and with a
`parent` role plus a failing ownership check, the function returns the very
same value `false` — the two denial paths the claim requires to be
distinguishable are not distinguishable in the code. -/
theorem c5_counterexample :
    userHasAccessToParticipant [] [] [] 1 2 = false ∧
    userHasAccessToParticipant [] [⟨1, 5, "parent"⟩] [⟨2, 5⟩] 1 2 = false ∧
    userHasAccessToParticipant [] [] [] 1 2 =
      userHasAccessToParticipant [] [⟨1, 5, "parent"⟩] [⟨2, 5⟩] 1 2 := by decide

/-- C5 (amended): access is granted iff a direct ownership link exists or the
subject holds an `animation` or `admin` membership in an organization the
participant belongs to (the ownership link is checked first, so a parent who
fails the role arm but owns the link is granted); when both arms fail the
function returns a bare `false` with no distinguishable reason. -/
theorem c5_amended (links : List UserParticipant) (ms : List Membership)
    (pos : List ParticipantOrg) (uid pid : Nat) :
    userHasAccessToParticipant links ms pos uid pid = true ↔
      (∃ l ∈ links, l.userId = uid ∧ l.participantId = pid) ∨
      (∃ m ∈ ms, m.userId = uid ∧ (m.role = "animation" ∨ m.role = "admin") ∧
        ∃ po ∈ pos, po.participantId = pid ∧ po.organizationId = m.organizationId) := by
  rcases hl : links.any (fun l => l.userId == uid && l.participantId == pid) with _ | _
  · simp_all [userHasAccessToParticipant, List.any_eq_true]
    aesop
  · simp_all [userHasAccessToParticipant, List.any_eq_true]

/-- C8 (code bug): the `reset_password` handler SELECTs the token row with
`used = false` and only afterwards UPDATEs `used = true` (without re-checking
`used` in the UPDATE), so under the interleaving SELECT₁, SELECT₂, UPDATE₁,
UPDATE₂ both concurrent consumption attempts report success — the token is
consumed twice.  A serial schedule does give exactly one success, showing the
interleaving is what breaks the claimed exactly-once property. -/
theorem c8_double_consumption :
    runSchedule [true, false, true, false] resetInit =
      ⟨true, ⟨some false, some true⟩, ⟨some false, some true⟩⟩ ∧
    runSchedule [true, true, false, false] resetInit =
      ⟨true, ⟨some false, some true⟩, ⟨some true, some false⟩⟩ := by decide

/-- C10: `extractToken` returns the 7-character suffix of a `Bearer `-prefixed
Authorization header irrespective of the query parameter (header precedence);
with no such header it falls back to a truthy `token` query parameter; with
neither it returns `null`. -/
theorem c10_extractToken (h t : String) (q : Option String) :
    (jsStartsWith h "Bearer " = true → extractToken (some h) q = some (jsDrop h 7)) ∧
    (t ≠ "" → extractToken none (some t) = some t) ∧
    extractToken none none = none := by
  refine ⟨fun hb => ?_, fun ht => ?_, ?_⟩ <;> simp [extractToken, strTruthy, *]

/-- C10 (witness): concrete header, query-fallback and empty cases. -/
theorem c10_extractToken_witness :
    extractToken (some "Bearer abc") (some "zz") = some "abc" ∧
    extractToken none (some "qq") = some "qq" ∧
    extractToken none none = none :=
  ⟨by simpa using (c10_extractToken "Bearer abc" "q" (some "zz")).1 (by decide),
   (c10_extractToken "x" "qq" none).2.1 (by decide),
   (c10_extractToken "x" "q" none).2.2⟩

/-- C7: encode-then-verify round trip — an access token issued by
`generateTokens` with the server's signing key, verified with the same key
before its expiry, yields exactly the payload that was encoded
(`{id, role, organizationId, type: 'access'}`), with no field coerced or
dropped. -/
theorem c7_roundtrip (secret refreshSecret : String) (u : UserRow)
    (org now now' : Nat) (hfresh : now' < now + ACCESS_TOKEN_EXPIRY) :
    verifyAccessToken secret
      (generateTokens secret refreshSecret u org now).accessToken now' =
      some (accessPayload u org) := by
  have h1 : ¬ (now + ACCESS_TOKEN_EXPIRY ≤ now') := Nat.not_le.mpr hfresh
  simp [verifyAccessToken, generateTokens, jwtVerify, h1, accessPayload]

/-- C7 (witness): concrete round trip at issue time 0 verified at time 10. -/
theorem c7_roundtrip_witness :
    verifyAccessToken "k"
      (generateTokens "k" "r" ⟨1, "admin", "e@x.c", none⟩ 7 0).accessToken 10 =
      some (accessPayload ⟨1, "admin", "e@x.c", none⟩ 7) :=
  c7_roundtrip "k" "r" ⟨1, "admin", "e@x.c", none⟩ 7 0 10 (by decide)

/-- C9: `verifyAccessToken` accepts only payloads whose `type` claim is
`'access'`: any accepted token has that claim; a validly signed token with a
different `type` yields `null`; and a refresh token issued by `generateTokens`
is never accepted by `verifyAccessToken`, whatever the refresh secret is
(wrong signature when the secrets differ, `type` mismatch when they agree). -/
theorem c9_access_only (secret refreshSecret : String) (t : RawToken) (now : Nat)
    (d p : JwtPayload) (k : String) (e : Nat) (u : UserRow) (org nw nw' : Nat) :
    (verifyAccessToken secret t now = some d → d.tokType = some "access") ∧
    (p.tokType ≠ some "access" → verifyAccessToken secret (.signed p k e) now = none) ∧
    verifyAccessToken secret
      (generateTokens secret refreshSecret u org nw).refreshToken nw' = none := by
  refine ⟨?_, ?_, ?_⟩
  · intro hd
    unfold verifyAccessToken at hd
    cases h : jwtVerify t secret now with
    | error e => rw [h] at hd; cases hd
    | ok d' =>
      rw [h] at hd
      dsimp only at hd
      cases hty : (d'.tokType == some "access") with
      | false => rw [hty] at hd; simp at hd
      | true =>
        rw [hty] at hd
        simp only [if_pos rfl] at hd
        cases hd
        simpa using hty
  · intro hp
    by_cases hk : k = secret
    · subst hk
      by_cases he : e ≤ now <;>
        simp [verifyAccessToken, jwtVerify, he, hp]
    · simp [verifyAccessToken, jwtVerify, hk]
  · by_cases hk : refreshSecret = secret
    · subst hk
      by_cases he : nw + REFRESH_TOKEN_EXPIRY ≤ nw' <;>
        simp [verifyAccessToken, generateTokens, jwtVerify, refreshPayload, he]
    · simp [verifyAccessToken, generateTokens, jwtVerify, hk]

/-- C9 (witness): a concrete accepted token carries `type = 'access'`; a
signed `type = 'refresh'` payload is rejected; the refresh token of a concrete
`generateTokens` call is rejected by `verifyAccessToken`. -/
theorem c9_access_only_witness :
    pAdmin7.tokType = some "access" ∧
    verifyAccessToken "k" (.signed (refreshPayload ⟨1, "admin", "e@x.c", none⟩ 7) "k" 100) 10 = none ∧
    verifyAccessToken "k" (generateTokens "k" "k_refresh" ⟨1, "admin", "e@x.c", none⟩ 7 0).refreshToken 5 = none :=
  ⟨(c9_access_only "k" "r" (.signed pAdmin7 "k" 100) 10 pAdmin7
      (refreshPayload ⟨1, "admin", "e@x.c", none⟩ 7) "k" 100 ⟨1, "admin", "e@x.c", none⟩ 7 0 5).1
      (by decide),
   (c9_access_only "k" "r" (.signed pAdmin7 "k" 100) 10 pAdmin7
      (refreshPayload ⟨1, "admin", "e@x.c", none⟩ 7) "k" 100 ⟨1, "admin", "e@x.c", none⟩ 7 0 5).2.1
      (by decide),
   (c9_access_only "k" "k_refresh" (.signed pAdmin7 "k" 100) 10 pAdmin7
      (refreshPayload ⟨1, "admin", "e@x.c", none⟩ 7) "k" 100 ⟨1, "admin", "e@x.c", none⟩ 7 0 5).2.2⟩

/-- C1 (counterexample): with a verified credential claiming tenant 7 and an
explicit `hostname` query parameter bound to tenant 99, the pipeline does
return tenant 7, but its outcome is *identical* to a request without the
parameter — no `TenantSpoofAttempt` is flagged anywhere; and on a public route
with no credential at all, the explicit parameter is *used* for resolution
(tenant 99) instead of being ignored (host-only resolution would give
tenant 1). -/
theorem c1_counterexample :
    resolveContext "k" ⟨"/x", some (.signed pAdmin7 "k" 100), some "evil.app", "real.app"⟩ 10 dbX =
      .next ⟨some pAdmin7, some 7⟩ ∧
    resolveContext "k" ⟨"/x", some (.signed pAdmin7 "k" 100), some "evil.app", "real.app"⟩ 10 dbX =
      resolveContext "k" ⟨"/x", some (.signed pAdmin7 "k" 100), none, "real.app"⟩ 10 dbX ∧
    resolveContext "k" ⟨"/login", none, some "evil.app", "real.app"⟩ 10 dbX =
      .next ⟨none, some 99⟩ ∧
    resolveContext "k" ⟨"/login", none, none, "real.app"⟩ 10 dbX =
      .next ⟨none, some 1⟩ := by decide

/-- C1 (amended): when the token middleware bound a truthy tenant from a
verified claim, resolution returns that tenant and is insensitive to the
explicit `hostname` parameter (so the parameter is ignored but *no spoof
attempt is flagged* — the outcome is the same as without the parameter); when
no verified claim bound a tenant, a non-empty explicit `hostname` parameter is
*used* as the lookup hostname, taking precedence over the Host header. -/
theorem c1_amended (secret : String) (req : Request) (now : Nat)
    (db : List DomainBinding) (ctx : Ctx) (qh : Option String) (h : String) :
    (configTokenMiddleware secret req now = .next ctx →
      natTruthy ctx.organizationId = true →
      resolveContext secret { req with queryHostname := qh } now db = .next ctx) ∧
    (natTruthy ctx.organizationId = false → req.queryHostname = some h → h ≠ "" →
      requireOrganizationContext ctx req db =
        requireOrganizationContext ctx { req with queryHostname := none, hostname := h } db) := by
  constructor
  · intro hc htr
    have hins : configTokenMiddleware secret { req with queryHostname := qh } now
        = configTokenMiddleware secret req now := by
      simp [configTokenMiddleware]
    unfold resolveContext
    rw [hins, hc]
    simp [requireOrganizationContext, htr]
  · intro hf hq hne
    have hh : effectiveHostname req = h := by
      simp [effectiveHostname, hq, hne]
    have hh' : effectiveHostname { req with queryHostname := none, hostname := h } = h := by
      simp [effectiveHostname]
    unfold requireOrganizationContext
    rw [hf, hh, hh']

/-- C1 (amended, witness): concrete instances of both halves: claim tenant 7
wins and the result carries no spoof marker; without a claim the explicit
parameter `evil.app` is used as the lookup hostname. -/
theorem c1_amended_witness :
    resolveContext "k" ⟨"/x", some (.signed pAdmin7 "k" 100), some "spoof.app", "real.app"⟩ 10 dbX =
      .next ⟨some pAdmin7, some 7⟩ ∧
    requireOrganizationContext ⟨none, none⟩ ⟨"/login", none, some "evil.app", "real.app"⟩ dbX =
      requireOrganizationContext ⟨none, none⟩ ⟨"/login", none, none, "evil.app"⟩ dbX :=
  ⟨(c1_amended "k" ⟨"/x", some (.signed pAdmin7 "k" 100), none, "real.app"⟩ 10 dbX
      ⟨some pAdmin7, some 7⟩ (some "spoof.app") "evil.app").1 (by decide) (by decide),
   (c1_amended "k" ⟨"/login", none, some "evil.app", "real.app"⟩ 10 dbX
      ⟨none, none⟩ none "evil.app").2 (by decide) rfl (by decide)⟩

/-- The role returned by the login join is the membership role of that user in
the queried organization. -/
theorem queryUserRole_lookup (users : List UserRec) (ms : List Membership)
    (email : String) (org : Nat) (u : UserRec) (r : String)
    (h : queryUserRole users ms email org = some (u, r)) :
    lookupRole ms u.id org = some r := by
  induction users with
  | nil => simp [queryUserRole] at h
  | cons u0 rest ih =>
    unfold queryUserRole at h
    split at h
    · cases hl : lookupRole ms u0.id org with
      | some r0 =>
        rw [hl] at h
        injection h with h'
        injection h' with h1 h2
        subst h1; subst h2
        exact hl
      | none =>
        rw [hl] at h
        exact ih h
    · exact ih h

/-- Inversion of a successful `authenticateUser`: the returned role comes from
the login join for the requested organization, and the tokens are generated
from that user row and role for that same organization. -/
theorem authenticateUser_success (secret rs : String) (users : List UserRec)
    (ms : List Membership) (email pw : String) (org now : Nat)
    (u : UserRec) (role : String) (tk : TokenPair)
    (h : authenticateUser secret rs users ms email pw org now = .success u role tk) :
    queryUserRole users ms email org = some (u, role) ∧
    tk = generateTokens secret rs ⟨u.id, role, u.email, u.token_version⟩ org now := by
  unfold authenticateUser at h
  cases hq : queryUserRole users ms email org with
  | none => rw [hq] at h; cases h
  | some ur =>
    obtain ⟨u0, r0⟩ := ur
    rw [hq] at h
    dsimp only at h
    split at h
    · cases h
    · split at h
      · cases h
      · injection h with h1 h2 h3
        subst h1; subst h2; subst h3
        exact ⟨rfl, rfl⟩

/-- C4: the role carried by a token issued by `authenticateUser` for tenant
`A` is the subject's membership role *within `A`* (whatever roles the
membership table gives them elsewhere); the token middleware binds exactly
that role together with tenant `A`, and `roleMiddleware` evaluates it — so a
subject who is `parent` in the resolved tenant is denied an admin-only
operation even if the same membership table makes them `admin` in another
tenant. -/
theorem c4_role_scoped (secret rs : String) (users : List UserRec)
    (ms : List Membership) (email pw : String) (A now now' : Nat)
    (u : UserRec) (role : String) (tk : TokenPair)
    (path : String) (qh : Option String) (host : String)
    (hs : authenticateUser secret rs users ms email pw A now = .success u role tk) :
    lookupRole ms u.id A = some role ∧
    (isPublicRoute path = false → now' < now + ACCESS_TOKEN_EXPIRY →
     u.id ≠ 0 → A ≠ 0 →
      configTokenMiddleware secret ⟨path, some tk.accessToken, qh, host⟩ now' =
        .next ⟨some (accessPayload ⟨u.id, role, u.email, u.token_version⟩ A), some A⟩ ∧
      (role = "parent" →
        roleMiddleware ["admin"]
          ⟨some (accessPayload ⟨u.id, role, u.email, u.token_version⟩ A), some A⟩ =
          .reject 403 ⟨false, false, none, "Insufficient permissions"⟩)) := by
  obtain ⟨hq, htk⟩ := authenticateUser_success secret rs users ms email pw A now u role tk hs
  refine ⟨queryUserRole_lookup users ms email A u role hq, ?_⟩
  intro hpub hfresh hid hA
  constructor
  · subst htk
    have hnl : ¬ (now + ACCESS_TOKEN_EXPIRY ≤ now') := Nat.not_le.mpr hfresh
    simp [configTokenMiddleware, hpub, generateTokens, verifyToken, jwtVerify,
      hnl, Except.toOption, accessPayload, natTruthy, hid, hA]
  · intro hrole
    subst hrole
    simp [roleMiddleware, accessPayload]

/-- C4 (witness): subject 1 is `parent` in tenant 1 and `admin` in tenant 2;
logging in against tenant 1 yields a parent token, the middleware binds
`(role = parent, tenant = 1)`, and the admin-only gate denies. -/
theorem c4_role_scoped_witness :
    lookupRole [⟨1, 1, "parent"⟩, ⟨1, 2, "admin"⟩] 1 1 = some "parent" ∧
    configTokenMiddleware "k"
      ⟨"/x", some (generateTokens "k" "r" ⟨1, "parent", "p@x.c", none⟩ 1 0).accessToken,
        none, "h"⟩ 10 =
      .next ⟨some (accessPayload ⟨1, "parent", "p@x.c", none⟩ 1), some 1⟩ ∧
    roleMiddleware ["admin"] ⟨some (accessPayload ⟨1, "parent", "p@x.c", none⟩ 1), some 1⟩ =
      .reject 403 ⟨false, false, none, "Insufficient permissions"⟩ := by
  have h := c4_role_scoped "k" "r" [⟨1, "p@x.c", "$2b$pw", true, "P", none⟩]
    [⟨1, 1, "parent"⟩, ⟨1, 2, "admin"⟩] "p@x.c" "pw" 1 0 10
    ⟨1, "p@x.c", "$2b$pw", true, "P", none⟩ "parent"
    (generateTokens "k" "r" ⟨1, "parent", "p@x.c", none⟩ 1 0) "/x" none "h" (by decide)
  have h2 := h.2 (by decide) (by decide) (by decide) (by decide)
  exact ⟨h.1, h2.1, h2.2 rfl⟩

/-- C6 (counterexample): the rejection behaviour breaks the claimed envelope
and status mapping in three ways at concrete inputs: the `index.js` token
middleware answers an invalid credential with **403**, not 401; the
`requireOrganization` middleware answers a missing tenant with **200** (it
never sets a status), not 400; and the 401 `"Authentication required"`
rejection body **omits the `data` field** instead of carrying `data: null`. -/
theorem c6_counterexample :
    indexTokenMiddleware "k" ⟨"/x", some (.malformed "zz"), none, "h"⟩ 0 =
      .reject 403 ⟨false, false, none, "Invalid or expired token: jwt malformed"⟩ ∧
    requireOrganization true ⟨none, none⟩ =
      .reject 200 ⟨false, true, none, "Organization context is required"⟩ ∧
    configTokenMiddleware "k" ⟨"/x", none, none, "h"⟩ 0 =
      .reject 401 ⟨false, false, none, "Authentication required"⟩ ∧
    (Envelope.mk false false none "Authentication required").hasData = false := by decide

/-- C6 (amended): every rejection of the context-resolution middlewares is a
JSON body with `success: false` and a message; the rejections rendered through
`jsonResponse` — `requireOrganization`'s and `requireOrganizationContext`'s —
carry the full envelope with `data: null`, while the token middlewares'
401/403 bodies omit the `data` field; statuses are 401 for a missing token,
403 (not 401) for a failed verification in the `index.js` middleware, 200 (no
status set) from `requireOrganization`, and 400 for an unresolved tenant in
`requireOrganizationContext`. -/
theorem c6_amended (secret : String) (req : Request) (now : Nat) (t : RawToken)
    (er : JwtError) (ctx : Ctx) (db : List DomainBinding) :
    (isPublicRoute req.path = false → req.bearer = none →
      configTokenMiddleware secret req now =
        .reject 401 ⟨false, false, none, "Authentication required"⟩) ∧
    (indexPublicRoutes.contains req.path = false → req.bearer = some t →
      jwtVerify t secret now = .error er →
      indexTokenMiddleware secret req now =
        .reject 403 ⟨false, false, none, "Invalid or expired token: " ++ jwtErrorMessage er⟩) ∧
    (natTruthy ctx.organizationId = false →
      requireOrganization true ctx =
        .reject 200 ⟨false, true, none, "Organization context is required"⟩) ∧
    (natTruthy ctx.organizationId = false →
      determineOrganizationId (effectiveHostname req) db = none →
      requireOrganizationContext ctx req db =
        .reject 400 ⟨false, true, none, "Organization context required"⟩) := by
  refine ⟨fun h1 h2 => ?_, fun h1 h2 h3 => ?_, fun h1 => ?_, fun h1 h2 => ?_⟩
  · simp [configTokenMiddleware, h1, h2]
  · have h1' : req.path ∉ indexPublicRoutes := by simpa using h1
    simp [indexTokenMiddleware, h1', h2, h3]
  · simp [requireOrganization, h1]
  · simp [requireOrganizationContext, h1, h2]

/-- C6 (amended, witness): concrete instances of the four rejection shapes. -/
theorem c6_amended_witness :
    configTokenMiddleware "k" ⟨"/x", none, none, "h"⟩ 0 =
      .reject 401 ⟨false, false, none, "Authentication required"⟩ ∧
    indexTokenMiddleware "k" ⟨"/x", some (.malformed "zz"), none, "h"⟩ 0 =
      .reject 403
        ⟨false, false, none,
          "Invalid or expired token: " ++ jwtErrorMessage (.jsonWebTokenError "jwt malformed")⟩ ∧
    requireOrganization true ⟨none, none⟩ =
      .reject 200 ⟨false, true, none, "Organization context is required"⟩ ∧
    requireOrganizationContext ⟨none, none⟩ ⟨"/x", none, none, "nowhere.example"⟩ dbX =
      .reject 400 ⟨false, true, none, "Organization context required"⟩ :=
  ⟨(c6_amended "k" ⟨"/x", none, none, "h"⟩ 0 (.malformed "zz")
      (.jsonWebTokenError "jwt malformed") ⟨none, none⟩ dbX).1 (by decide) rfl,
   (c6_amended "k" ⟨"/x", some (.malformed "zz"), none, "h"⟩ 0 (.malformed "zz")
      (.jsonWebTokenError "jwt malformed") ⟨none, none⟩ dbX).2.1 (by decide) rfl rfl,
   (c6_amended "k" ⟨"/x", none, none, "h"⟩ 0 (.malformed "zz")
      (.jsonWebTokenError "jwt malformed") ⟨none, none⟩ dbX).2.2.1 rfl,
   (c6_amended "k" ⟨"/x", none, none, "nowhere.example"⟩ 0 (.malformed "zz")
      (.jsonWebTokenError "jwt malformed") ⟨none, none⟩ dbX).2.2.2 rfl (by decide)⟩

end Wampums
